import Mathlib

/-!
Verification development for the libvisa crate: a shallow embedding of the
async-task signal table, the AsyncTask poll/terminate/drop state machine
(src/session.rs), the attribute codecs (src/attribute.rs), the status-code
classification (src/error.rs) and the event callback bridge (src/event.rs),
together with theorems about them.

Machine integers are modelled as Nat/Int; where a Rust cast can truncate or
reinterpret, the reduction (mod 2^w, two's complement) is written explicitly.
-/

namespace LibVisa

/-- Modelled from the spec: the crate declares a generated module of raw VISA
constants (the bindings module) that is not part of the sources; per the spec
the identifier space must match the transport specification bit-for-bit, so
error status codes are the signed 32-bit values 0xBFFF0000 + offset of that
specification. -/
def viError (off : Nat) : Int := -1073807360 + (off : Int)

/-- Modelled from the spec: completion/success status codes of the missing
bindings module, the values 0x3FFF0000 + offset of the transport
specification. -/
def viSuccess (off : Nat) : Int := 1073676288 + (off : Int)

/-- Error kinds of src/error.rs (enum ErrorType, repr i32): one variant per
named VISA error status, default SystemError. -/
inductive ErrorType where
  | SystemError
  | InvObject
  | RsrcLocked
  | InvExpr
  | RsrcNfound
  | InvRsrcName
  | InvAccMode
  | Tmo
  | ClosingFailed
  | InvDegree
  | InvJobId
  | NsupAttr
  | NsupAttrState
  | AttrReadonly
  | InvLockType
  | InvAccessKey
  | InvEvent
  | InvMech
  | HndlrNinstalled
  | InvHndlrRef
  | InvContext
  | Nenabled
  | Abort
  | RawWrProtViol
  | RawRdProtViol
  | OutpProtViol
  | InpProtViol
  | Berr
  | InProgress
  | InvSetup
  | QueueError
  | Alloc
  | InvMask
  | Io
  | InvFmt
  | NsupFmt
  | LineInUse
  | LineNreserved
  | NsupMode
  | SrqNoccurred
  | InvSpace
  | InvOffset
  | InvWidth
  | NsupOffset
  | NsupVarWidth
  | WindowNmapped
  | RespPending
  | Nlisteners
  | Ncic
  | NsysCntlr
  | NsupOper
  | IntrPending
  | AsrlParity
  | AsrlFraming
  | AsrlOverrun
  | TrigNmapped
  | NsupAlignOffset
  | UserBuf
  | RsrcBusy
  | NsupWidth
  | InvParameter
  | InvProt
  | InvSize
  | WindowMapped
  | NimplOper
  | InvLength
  | InvMode
  | SesnNlocked
  | MemNshared
  | LibraryNfound
  | NsupIntr
  | InvLine
  | FileAccess
  | FileIo
  | NsupLine
  | NsupMech
  | IntfNumNconfig
  | ConnLost
  | Npermission
deriving DecidableEq, Repr

/-- Discriminant of each ErrorType variant: the i32 VISA status constant it is
declared with in src/error.rs (this is what the Rust cast ErrorType as i32
produces). -/
def ErrorType.code : ErrorType → Int
  | .SystemError => viError 0x00
  | .InvObject => viError 0x0E
  | .RsrcLocked => viError 0x0F
  | .InvExpr => viError 0x10
  | .RsrcNfound => viError 0x11
  | .InvRsrcName => viError 0x12
  | .InvAccMode => viError 0x13
  | .Tmo => viError 0x15
  | .ClosingFailed => viError 0x16
  | .InvDegree => viError 0x1B
  | .InvJobId => viError 0x1C
  | .NsupAttr => viError 0x1D
  | .NsupAttrState => viError 0x1E
  | .AttrReadonly => viError 0x1F
  | .InvLockType => viError 0x20
  | .InvAccessKey => viError 0x21
  | .InvEvent => viError 0x26
  | .InvMech => viError 0x27
  | .HndlrNinstalled => viError 0x28
  | .InvHndlrRef => viError 0x29
  | .InvContext => viError 0x2A
  | .Nenabled => viError 0x2F
  | .Abort => viError 0x30
  | .RawWrProtViol => viError 0x34
  | .RawRdProtViol => viError 0x35
  | .OutpProtViol => viError 0x36
  | .InpProtViol => viError 0x37
  | .Berr => viError 0x38
  | .InProgress => viError 0x39
  | .InvSetup => viError 0x3A
  | .QueueError => viError 0x3B
  | .Alloc => viError 0x3C
  | .InvMask => viError 0x3D
  | .Io => viError 0x3E
  | .InvFmt => viError 0x3F
  | .NsupFmt => viError 0x41
  | .LineInUse => viError 0x42
  | .LineNreserved => viError 0x43
  | .NsupMode => viError 0x46
  | .SrqNoccurred => viError 0x4A
  | .InvSpace => viError 0x4E
  | .InvOffset => viError 0x51
  | .InvWidth => viError 0x52
  | .NsupOffset => viError 0x54
  | .NsupVarWidth => viError 0x55
  | .WindowNmapped => viError 0x57
  | .RespPending => viError 0x59
  | .Nlisteners => viError 0x5F
  | .Ncic => viError 0x60
  | .NsysCntlr => viError 0x61
  | .NsupOper => viError 0x67
  | .IntrPending => viError 0x68
  | .AsrlParity => viError 0x6A
  | .AsrlFraming => viError 0x6B
  | .AsrlOverrun => viError 0x6C
  | .TrigNmapped => viError 0x6E
  | .NsupAlignOffset => viError 0x70
  | .UserBuf => viError 0x71
  | .RsrcBusy => viError 0x72
  | .NsupWidth => viError 0x76
  | .InvParameter => viError 0x78
  | .InvProt => viError 0x79
  | .InvSize => viError 0x7B
  | .WindowMapped => viError 0x80
  | .NimplOper => viError 0x81
  | .InvLength => viError 0x83
  | .InvMode => viError 0x91
  | .SesnNlocked => viError 0x9C
  | .MemNshared => viError 0x9D
  | .LibraryNfound => viError 0x9E
  | .NsupIntr => viError 0x9F
  | .InvLine => viError 0xA0
  | .FileAccess => viError 0xA1
  | .FileIo => viError 0xA2
  | .NsupLine => viError 0xA3
  | .NsupMech => viError 0xA4
  | .IntfNumNconfig => viError 0xA5
  | .ConnLost => viError 0xA6
  | .Npermission => viError 0xA8

set_option maxHeartbeats 1000000 in
/-- Every ErrorType variant, in the declaration order of the Rust enum; the
guard chain of the From i32 impl in src/error.rs tests the variants in exactly
this order. -/
def ErrorType.all : List ErrorType :=
  [.SystemError, .InvObject, .RsrcLocked, .InvExpr, .RsrcNfound, .InvRsrcName,
   .InvAccMode, .Tmo, .ClosingFailed, .InvDegree, .InvJobId, .NsupAttr,
   .NsupAttrState, .AttrReadonly, .InvLockType, .InvAccessKey, .InvEvent,
   .InvMech, .HndlrNinstalled, .InvHndlrRef, .InvContext, .Nenabled, .Abort,
   .RawWrProtViol, .RawRdProtViol, .OutpProtViol, .InpProtViol, .Berr,
   .InProgress, .InvSetup, .QueueError, .Alloc, .InvMask, .Io, .InvFmt,
   .NsupFmt, .LineInUse, .LineNreserved, .NsupMode, .SrqNoccurred, .InvSpace,
   .InvOffset, .InvWidth, .NsupOffset, .NsupVarWidth, .WindowNmapped,
   .RespPending, .Nlisteners, .Ncic, .NsysCntlr, .NsupOper, .IntrPending,
   .AsrlParity, .AsrlFraming, .AsrlOverrun, .TrigNmapped, .NsupAlignOffset,
   .UserBuf, .RsrcBusy, .NsupWidth, .InvParameter, .InvProt, .InvSize,
   .WindowMapped, .NimplOper, .InvLength, .InvMode, .SesnNlocked, .MemNshared,
   .LibraryNfound, .NsupIntr, .InvLine, .FileAccess, .FileIo, .NsupLine,
   .NsupMech, .IntfNumNconfig, .ConnLost, .Npermission]

/-- Classification of a raw i32 status into an ErrorType: the From i32 impl of
src/error.rs, a chain of guards x == Variant as i32 in declaration order with
a final catch-all arm yielding SystemError. -/
def ErrorType.fromStatus (value : Int) : ErrorType :=
  match ErrorType.all.find? (fun v => value == v.code) with
  | some v => v
  | none => ErrorType.SystemError

/-- Error of src/error.rs: a classified status plus an optional description
(the description is fetched from the transport when a session is available;
here it is an input). -/
structure Error where
  status : ErrorType
  description : Option String
deriving DecidableEq, Repr

instance : Inhabited Error := ⟨⟨ErrorType.SystemError, none⟩⟩

/-- Success status set Error::ERROR_OK of src/error.rs: VI_SUCCESS and the
twelve informational success codes. -/
def Error.ERROR_OK : List Int :=
  [0, viSuccess 0x02, viSuccess 0x03, viSuccess 0x04, viSuccess 0x05,
   viSuccess 0x06, viSuccess 0x7D, viSuccess 0x7E, viSuccess 0x80,
   viSuccess 0x98, viSuccess 0x99, viSuccess 0x9A, viSuccess 0x9B]

/-- Error::new of src/error.rs. On a success code it returns the default error;
otherwise it classifies the status and attaches the description, which models
the text optionally fetched from the transport when a session is supplied
(None when no session is given or the fetch fails). -/
def Error.new (raw_status : Int) (desc : Option String) : Error :=
  if Error.ERROR_OK.contains raw_status then ⟨ErrorType.SystemError, none⟩
  else ⟨ErrorType.fromStatus raw_status, desc⟩

/-- Error::wrap_binding of src/error.rs, the single choke point wrapping every
transport call: status is the value returned by the wrapped callback, desc the
description Error::new would fetch for a failure. -/
def Error.wrap_binding (desc : Option String) (status : Int) : Except Error Unit :=
  if Error.ERROR_OK.contains status then Except.ok ()
  else Except.error (Error.new status desc)

/-! Event types and the callback bridge of src/event.rs. -/

/-- Modelled from the spec: raw event-type constants of the missing bindings
module, the u32 values fixed by the transport specification. -/
def VI_EVENT_IO_COMPLETION : Nat := 0x3FFF2009

/-- Modelled from the spec: raw constant of the missing bindings module. -/
def VI_EVENT_TRIG : Nat := 0xBFFF200A

/-- Modelled from the spec: raw constant of the missing bindings module. -/
def VI_EVENT_SERVICE_REQ : Nat := 0x3FFF200B

/-- Modelled from the spec: raw constant of the missing bindings module. -/
def VI_EVENT_CLEAR : Nat := 0x3FFF200D

/-- Modelled from the spec: raw constant of the missing bindings module. -/
def VI_EVENT_EXCEPTION : Nat := 0xBFFF200E

/-- Modelled from the spec: raw constant of the missing bindings module. -/
def VI_EVENT_GPIB_CIC : Nat := 0x3FFF2012

/-- Modelled from the spec: raw constant of the missing bindings module. -/
def VI_EVENT_GPIB_TALK : Nat := 0x3FFF2013

/-- Modelled from the spec: raw constant of the missing bindings module. -/
def VI_EVENT_GPIB_LISTEN : Nat := 0x3FFF2014

/-- Modelled from the spec: raw constant of the missing bindings module. -/
def VI_EVENT_VXI_VME_SYSFAIL : Nat := 0x3FFF2015

/-- Modelled from the spec: raw constant of the missing bindings module. -/
def VI_EVENT_VXI_VME_SYSRESET : Nat := 0x3FFF2016

/-- Modelled from the spec: raw constant of the missing bindings module. -/
def VI_EVENT_VXI_SIGP : Nat := 0x3FFF2020

/-- Modelled from the spec: raw constant of the missing bindings module. -/
def VI_EVENT_VXI_VME_INTR : Nat := 0xBFFF2021

/-- Modelled from the spec: raw constant of the missing bindings module. -/
def VI_EVENT_PXI_INTR : Nat := 0x3FFF2022

/-- Modelled from the spec: raw constant of the missing bindings module. -/
def VI_EVENT_TCPIP_CONNECT : Nat := 0x3FFF2036

/-- Modelled from the spec: raw constant of the missing bindings module. -/
def VI_EVENT_USB_INTR : Nat := 0x3FFF2037

/-- Modelled from the spec: raw constant of the missing bindings module. -/
def VI_ALL_ENABLED_EVENTS : Nat := 0x3FFF7FFF

/-- Modelled from the spec: the invalid-event error status of the missing
bindings module (offset 0x26 in the error space, the code the InvEvent
variant is declared with). -/
def VI_ERROR_INV_EVENT : Int := viError 0x26

/-- Modelled from the spec: the plain success status VI_SUCCESS (zero). -/
def VI_SUCCESS : Int := 0

/-- Event enum of src/event.rs (repr u32). -/
inductive Event where
  | IoCompletion
  | Trig
  | ServiceReq
  | Clear
  | Exception
  | GpibCic
  | GpibTalk
  | GpibListen
  | VxiVmeSysfail
  | VxiVmeSysreset
  | VxiSigp
  | VxiVmeIntr
  | PxiIntr
  | TcpipConnect
  | UsbIntr
  | All
deriving DecidableEq, Repr

/-- TryFrom u32 for Event of src/event.rs: a match on the sixteen raw
constants, every other value is an error. The source returns
Err(Error::default()) on failure; only the failure itself matters here, so the
embedding returns an Option. -/
def Event.try_from (value : Nat) : Option Event :=
  if value = VI_EVENT_IO_COMPLETION then some Event.IoCompletion
  else if value = VI_EVENT_TRIG then some Event.Trig
  else if value = VI_EVENT_SERVICE_REQ then some Event.ServiceReq
  else if value = VI_EVENT_CLEAR then some Event.Clear
  else if value = VI_EVENT_EXCEPTION then some Event.Exception
  else if value = VI_EVENT_GPIB_CIC then some Event.GpibCic
  else if value = VI_EVENT_GPIB_TALK then some Event.GpibTalk
  else if value = VI_EVENT_GPIB_LISTEN then some Event.GpibListen
  else if value = VI_EVENT_VXI_VME_SYSFAIL then some Event.VxiVmeSysfail
  else if value = VI_EVENT_VXI_VME_SYSRESET then some Event.VxiVmeSysreset
  else if value = VI_EVENT_VXI_SIGP then some Event.VxiSigp
  else if value = VI_EVENT_VXI_VME_INTR then some Event.VxiVmeIntr
  else if value = VI_EVENT_PXI_INTR then some Event.PxiIntr
  else if value = VI_EVENT_TCPIP_CONNECT then some Event.TcpipConnect
  else if value = VI_EVENT_USB_INTR then some Event.UsbIntr
  else if value = VI_ALL_ENABLED_EVENTS then some Event.All
  else none

/-- HandlerWithData::c_handler of src/event.rs, the transport-facing callback
bridge, generic over the installed typed handler. A handler is modelled as a
state transformer (its Rust side effects act on ambient state such as the
signal table); handle receives session, decoded event type, event context and
user data. The bridge returns the ViStatus handed back to the transport and
the resulting state. -/
def c_handler {σ : Type} (handle : Nat → Event → Nat → Nat → σ → Except Error Unit × σ)
    (session event_type event user_data : Nat) (st : σ) : Int × σ :=
  match Event.try_from event_type with
  | none => (VI_ERROR_INV_EVENT, st)
  | some ev =>
    match handle session ev event user_data st with
    | (Except.ok _, st2) => (VI_SUCCESS, st2)
    | (Except.error e, st2) => (ErrorType.code e.status, st2)

/-! Async IO signal table and the AsyncTask state machine of src/session.rs. -/

/-- Session identifiers (ViSession of the bindings, numeric). -/
abbrev ViSession := Nat

/-- Job identifiers (ViJobId of the bindings, numeric). -/
abbrev ViJobId := Nat

/-- IO_SIGNAL_TABLE of src/session.rs: a set of completed (session, job)
pairs, modelled as a duplicate-free list with set semantics. -/
abbrev SigTable := List (ViSession × ViJobId)

/-- Function signal_done of src/session.rs: HashSet insert of (session, job)
into the signal table (a no-op when the pair is already present). -/
def signal_done (session : ViSession) (job_id : ViJobId) (t : SigTable) : SigTable :=
  if (session, job_id) ∈ t then t else (session, job_id) :: t

/-- Function check_signal_done of src/session.rs: HashSet remove of
(session, job), returning whether the pair was present together with the
table after removal. -/
def check_signal_done (session : ViSession) (job_id : ViJobId) (t : SigTable) :
    Bool × SigTable :=
  if (session, job_id) ∈ t then
    (true, t.filter (fun p => p ≠ (session, job_id)))
  else (false, t)

/-- Duration of the Rust standard library: whole seconds plus a nanosecond
part (invariant nanos < 10^9 maintained by all constructors). -/
structure Duration where
  secs : Nat
  nanos : Nat
deriving DecidableEq, Repr

/-- Strict order on Duration (the derived lexicographic Ord of Rust, which on
normalized durations agrees with comparing total nanoseconds). -/
def Duration.ltb (a b : Duration) : Bool :=
  a.secs < b.secs || (a.secs == b.secs && a.nanos < b.nanos)

/-- Duration::from_millis of the Rust standard library. -/
def Duration.from_millis (m : Nat) : Duration :=
  ⟨m / 1000, (m % 1000) * 1000000⟩

/-- Duration::as_millis of the Rust standard library: whole milliseconds,
truncating any sub-millisecond remainder. -/
def Duration.as_millis (d : Duration) : Nat :=
  d.secs * 1000 + d.nanos / 1000000

/-- AsyncTask of src/session.rs. The start timestamp is an opaque Instant;
poll only uses the wall-clock time elapsed since it, which the embedding
passes to poll directly. -/
structure AsyncTask where
  session : ViSession
  job_id : ViJobId
  timeout : Duration

/-- Return type of Future::poll for AsyncTask: std::task::Poll of
Result ((), Error). -/
inductive TaskPoll where
  | ready (r : Except Error Unit)
  | pending

/-- Description string of the timeout error produced by poll. -/
def asyncTimeoutMsg : String := "Async IO Timeout"

/-- Future::poll for AsyncTask (src/session.rs): first consume a completion
signal from the table; otherwise time out when the elapsed wall-clock time
exceeds the caller-supplied timeout; otherwise stay pending. -/
def AsyncTask.poll (t : AsyncTask) (elapsed : Duration) (tbl : SigTable) :
    TaskPoll × SigTable :=
  let hit := check_signal_done t.session t.job_id tbl
  if hit.1 then (TaskPoll.ready (Except.ok ()), hit.2)
  else if Duration.ltb t.timeout elapsed then
    (TaskPoll.ready (Except.error ⟨ErrorType.Tmo, some asyncTimeoutMsg⟩), hit.2)
  else (TaskPoll.pending, hit.2)

/-- HandlerWithData::handle for AsyncTask (src/session.rs): the completion
handler records (session, job) in the signal table and succeeds; the job id is
the user data installed with the handler. -/
def AsyncTask.handle (session : Nat) (_ev : Event) (_event : Nat) (job_id : Nat)
    (tbl : SigTable) : Except Error Unit × SigTable :=
  (Except.ok (), signal_done session job_id tbl)

/-- State visible to the AsyncTask cleanup path: the signal table, the set of
installed IoCompletion handler registrations keyed by (session, job-id user
data), and the trace of viTerminate calls issued to the transport. -/
structure World where
  table : SigTable
  handlers : List (ViSession × ViJobId)
  aborted : List (ViSession × ViJobId)

/-- AsyncTask::terminate_task of src/session.rs. The transport's return
statuses for viTerminate and viUninstallHandler are inputs. viTerminate is
always issued; on a failure status the function returns early and the handler
stays installed, otherwise viUninstallHandler removes every matching
(session, job) registration and its status is wrapped as the result. -/
def terminate_task (stTerminate stUninstall : Int) (t : AsyncTask) (w : World) :
    Except Error Unit × World :=
  let w1 : World := { w with aborted := (t.session, t.job_id) :: w.aborted }
  match Error.wrap_binding none stTerminate with
  | Except.error e => (Except.error e, w1)
  | Except.ok _ =>
    match Error.wrap_binding none stUninstall with
    | Except.ok _ =>
      (Except.ok (),
       { w1 with handlers := w1.handlers.filter (fun p => p ≠ (t.session, t.job_id)) })
    | Except.error e => (Except.error e, w1)

/-- Drop for AsyncTask (src/session.rs): self.terminate_task().ok() — the
cleanup runs and its result is discarded. -/
def AsyncTask.drop (stTerminate stUninstall : Int) (t : AsyncTask) (w : World) : World :=
  (terminate_task stTerminate stUninstall t w).2

/-- AsyncTask::terminate of src/session.rs: terminate(mut self) runs
terminate_task and then, because self goes out of scope, the Drop cleanup runs
a second time with fresh transport statuses. -/
def AsyncTask.terminate (stT1 stU1 stT2 stU2 : Int) (t : AsyncTask) (w : World) :
    Except Error Unit × World :=
  let r := terminate_task stT1 stU1 t w
  (r.1, AsyncTask.drop stT2 stU2 t r.2)

/-- Transport delivery of an IoCompletion event for job j on session s: when a
matching handler registration is installed, the transport invokes the
registered c_handler bridge (which runs AsyncTask::handle on the signal
table); with no matching registration nothing happens. -/
def deliver_completion (s : ViSession) (j : ViJobId) (w : World) : World :=
  if (s, j) ∈ w.handlers then
    { w with table := (c_handler AsyncTask.handle s VI_EVENT_IO_COMPLETION 0 j w.table).2 }
  else w

/-! Attribute codecs of src/attribute.rs. Each Rust attribute type is a
newtype over its decoded value; the embedding keeps the decoded value and the
two trait methods from_vi (decode) and as_vi (encode). Raw wire values are Nat
at their wire width for unsigned raws and Int for signed raws; the helpers
below make the Rust width casts explicit. -/

/-- Truncation of a wider value to a u16 raw value. -/
def toU16 (n : Nat) : Nat := n % 2 ^ 16

/-- Truncation of a wider value to a u32 raw value. -/
def toU32 (n : Nat) : Nat := n % 2 ^ 32

/-- Reinterpretation of the low 16 bits of an unsigned value as an i16. -/
def toI16 (n : Nat) : Int :=
  let m : Nat := n % 2 ^ 16
  if m < 2 ^ 15 then (m : Int) else (m : Int) - 2 ^ 16

/-- Modelled from the spec: boolean constants of the missing bindings
module. -/
def VI_TRUE : Nat := 1

/-- Modelled from the spec: boolean constant of the missing bindings
module. -/
def VI_FALSE : Nat := 0

/-- Decode arm generated by the impl_attr macro for every boolean attribute
(SendEndEn, GpibReaddrEn, DmaAllowEn, ...): VI_TRUE and VI_FALSE map to the
two truth values, any other raw ViBoolean is rejected. -/
def bool_from_vi (value : Nat) : Option Bool :=
  if value = VI_TRUE then some true
  else if value = VI_FALSE then some false
  else none

/-- Encode arm generated by the impl_attr macro for every boolean
attribute. -/
def bool_as_vi (value : Bool) : Nat :=
  if value then VI_TRUE else VI_FALSE

/-- Modelled from the spec: serial parity constants of the missing bindings
module. -/
def VI_ASRL_PAR_NONE : Nat := 0

/-- Modelled from the spec: serial parity constant. -/
def VI_ASRL_PAR_ODD : Nat := 1

/-- Modelled from the spec: serial parity constant. -/
def VI_ASRL_PAR_EVEN : Nat := 2

/-- Modelled from the spec: serial parity constant. -/
def VI_ASRL_PAR_MARK : Nat := 3

/-- Modelled from the spec: serial parity constant. -/
def VI_ASRL_PAR_SPACE : Nat := 4

/-- AsrlParityType of src/attribute.rs (repr u32). -/
inductive AsrlParityType where
  | None
  | Odd
  | Even
  | Mark
  | Space
deriving DecidableEq, Repr

/-- Discriminant of AsrlParityType (the Rust cast to u32). -/
def AsrlParityType.code : AsrlParityType → Nat
  | .None => VI_ASRL_PAR_NONE
  | .Odd => VI_ASRL_PAR_ODD
  | .Even => VI_ASRL_PAR_EVEN
  | .Mark => VI_ASRL_PAR_MARK
  | .Space => VI_ASRL_PAR_SPACE

/-- Decode of the AsrlParity attribute: the raw u16 (widened to u32) must
equal one of the five parity discriminants. -/
def AsrlParity.from_vi (value : Nat) : Option AsrlParityType :=
  if value = AsrlParityType.code AsrlParityType.None then some AsrlParityType.None
  else if value = AsrlParityType.code AsrlParityType.Odd then some AsrlParityType.Odd
  else if value = AsrlParityType.code AsrlParityType.Even then some AsrlParityType.Even
  else if value = AsrlParityType.code AsrlParityType.Mark then some AsrlParityType.Mark
  else if value = AsrlParityType.code AsrlParityType.Space then some AsrlParityType.Space
  else none

/-- Encode of the AsrlParity attribute: the discriminant as ViAttrState. -/
def AsrlParity.as_vi (value : AsrlParityType) : Nat :=
  AsrlParityType.code value

/-- Modelled from the spec: serial stop-bit constants of the missing bindings
module. -/
def VI_ASRL_STOP_ONE : Nat := 10

/-- Modelled from the spec: serial stop-bit constant. -/
def VI_ASRL_STOP_ONE5 : Nat := 15

/-- Modelled from the spec: serial stop-bit constant. -/
def VI_ASRL_STOP_TWO : Nat := 20

/-- AsrlStopBitsType of src/attribute.rs (repr u32). -/
inductive AsrlStopBitsType where
  | One
  | One5
  | Two
deriving DecidableEq, Repr

/-- Discriminant of AsrlStopBitsType. -/
def AsrlStopBitsType.code : AsrlStopBitsType → Nat
  | .One => VI_ASRL_STOP_ONE
  | .One5 => VI_ASRL_STOP_ONE5
  | .Two => VI_ASRL_STOP_TWO

/-- Decode of the AsrlStopBits attribute. -/
def AsrlStopBits.from_vi (value : Nat) : Option AsrlStopBitsType :=
  if value = AsrlStopBitsType.code AsrlStopBitsType.One then some AsrlStopBitsType.One
  else if value = AsrlStopBitsType.code AsrlStopBitsType.One5 then some AsrlStopBitsType.One5
  else if value = AsrlStopBitsType.code AsrlStopBitsType.Two then some AsrlStopBitsType.Two
  else none

/-- Encode of the AsrlStopBits attribute. -/
def AsrlStopBits.as_vi (value : AsrlStopBitsType) : Nat :=
  AsrlStopBitsType.code value

/-- Modelled from the spec: serial flow-control constants of the missing
bindings module. -/
def VI_ASRL_FLOW_NONE : Nat := 0

/-- Modelled from the spec: serial flow-control constant. -/
def VI_ASRL_FLOW_XON_XOFF : Nat := 1

/-- Modelled from the spec: serial flow-control constant. -/
def VI_ASRL_FLOW_RTS_CTS : Nat := 2

/-- Modelled from the spec: serial flow-control constant. -/
def VI_ASRL_FLOW_DTR_DSR : Nat := 4

/-- AsrlFlowCntrlType of src/attribute.rs (repr u32). -/
inductive AsrlFlowCntrlType where
  | None
  | XonXoff
  | RtsCts
  | DtrDsr
deriving DecidableEq, Repr

/-- Discriminant of AsrlFlowCntrlType. -/
def AsrlFlowCntrlType.code : AsrlFlowCntrlType → Nat
  | .None => VI_ASRL_FLOW_NONE
  | .XonXoff => VI_ASRL_FLOW_XON_XOFF
  | .RtsCts => VI_ASRL_FLOW_RTS_CTS
  | .DtrDsr => VI_ASRL_FLOW_DTR_DSR

/-- Decode of the AsrlFlowCntrl attribute. -/
def AsrlFlowCntrl.from_vi (value : Nat) : Option AsrlFlowCntrlType :=
  if value = AsrlFlowCntrlType.code AsrlFlowCntrlType.None then
    some AsrlFlowCntrlType.None
  else if value = AsrlFlowCntrlType.code AsrlFlowCntrlType.XonXoff then
    some AsrlFlowCntrlType.XonXoff
  else if value = AsrlFlowCntrlType.code AsrlFlowCntrlType.RtsCts then
    some AsrlFlowCntrlType.RtsCts
  else if value = AsrlFlowCntrlType.code AsrlFlowCntrlType.DtrDsr then
    some AsrlFlowCntrlType.DtrDsr
  else none

/-- Encode of the AsrlFlowCntrl attribute. -/
def AsrlFlowCntrl.as_vi (value : AsrlFlowCntrlType) : Nat :=
  AsrlFlowCntrlType.code value

/-- Modelled from the spec: access-mode constants of the missing bindings
module. -/
def VI_NO_LOCK : Nat := 0

/-- Modelled from the spec: access-mode constant. -/
def VI_EXCLUSIVE_LOCK : Nat := 1

/-- Modelled from the spec: access-mode constant. -/
def VI_SHARED_LOCK : Nat := 2

/-- Modelled from the spec: access-mode constant. -/
def VI_LOAD_CONFIG : Nat := 4

/-- AccessMode of src/attribute.rs (repr u32). -/
inductive AccessMode where
  | ExclusiveLock
  | SharedLock
  | NoLock
  | LoadConfig
deriving DecidableEq, Repr

/-- Discriminant of AccessMode. -/
def AccessMode.code : AccessMode → Nat
  | .ExclusiveLock => VI_EXCLUSIVE_LOCK
  | .SharedLock => VI_SHARED_LOCK
  | .NoLock => VI_NO_LOCK
  | .LoadConfig => VI_LOAD_CONFIG

/-- Decode of the RsrcLockState attribute: the raw u32 must equal one of the
four AccessMode discriminants (tested in the source order NoLock,
ExclusiveLock, SharedLock, LoadConfig). -/
def RsrcLockState.from_vi (value : Nat) : Option AccessMode :=
  if value = AccessMode.code AccessMode.NoLock then some AccessMode.NoLock
  else if value = AccessMode.code AccessMode.ExclusiveLock then some AccessMode.ExclusiveLock
  else if value = AccessMode.code AccessMode.SharedLock then some AccessMode.SharedLock
  else if value = AccessMode.code AccessMode.LoadConfig then some AccessMode.LoadConfig
  else none

/-- Encode of the RsrcLockState attribute. -/
def RsrcLockState.as_vi (value : AccessMode) : Nat :=
  AccessMode.code value

/-- Decode of the TmoValue attribute: total, every raw u32 becomes a duration
of that many milliseconds (including the immediate and infinite sentinel raw
values of the transport). -/
def TmoValue.from_vi (value : Nat) : Option Duration :=
  some (Duration.from_millis value)

/-- Encode of the TmoValue attribute: as_millis (a u128 in Rust) cast to the
u64 ViAttrState. -/
def TmoValue.as_vi (value : Duration) : Nat :=
  value.as_millis % 2 ^ 64

/-- Modelled from the spec: the no-secondary-address sentinel of the missing
bindings module, as the u16 the source truncates it to. -/
def VI_NO_SEC_ADDR : Nat := 0xFFFF

/-- Decode of the GpibSecondaryAddr attribute: raw 0..=30 is an address, the
sentinel is the no-value case, everything else is rejected. -/
def GpibSecondaryAddr.from_vi (value : Nat) : Option (Option Nat) :=
  if value ≤ 30 then some (some value)
  else if value = VI_NO_SEC_ADDR then some none
  else none

/-- Encode of the GpibSecondaryAddr attribute: unwrap_or substitutes the
sentinel for the no-value case. -/
def GpibSecondaryAddr.as_vi (value : Option Nat) : Nat :=
  value.getD VI_NO_SEC_ADDR

/-- Modelled from the spec: HS488 cable-length sentinel of the missing
bindings module. -/
def VI_GPIB_HS488_NIMPL : Int := -1

/-- Modelled from the spec: HS488 cable-length sentinel of the missing
bindings module. -/
def VI_GPIB_HS488_DISABLED : Int := 0

/-- GpibHs488CableLength of src/attribute.rs; Meters carries a u8 count. -/
inductive GpibHs488CableLength where
  | NotImplemented
  | Disabled
  | Meters (m : Nat)
deriving DecidableEq, Repr

/-- Values of GpibHs488CableLength that the decoder can produce (the defined
domain of the attribute): the two sentinels and 1 to 15 meters. -/
def GpibHs488CableLength.inDomain : GpibHs488CableLength → Bool
  | .NotImplemented => true
  | .Disabled => true
  | .Meters m => 1 ≤ m && m ≤ 15

/-- Decode of the GpibHs488CblLen attribute over the raw i16: the two
sentinels, 1..=15 meters, everything else rejected. -/
def GpibHs488CblLen.from_vi (value : Int) : Option GpibHs488CableLength :=
  if value = VI_GPIB_HS488_NIMPL then some GpibHs488CableLength.NotImplemented
  else if value = VI_GPIB_HS488_DISABLED then some GpibHs488CableLength.Disabled
  else if 1 ≤ value ∧ value ≤ 15 then some (GpibHs488CableLength.Meters value.toNat)
  else none

/-- Encode of the GpibHs488CblLen attribute before the final cast: sentinels
map to their codes and a Meters count is clamped into 1..=15 (0 becomes 1,
anything above 15 becomes 15). -/
def GpibHs488CblLen.as_vi_i16 : GpibHs488CableLength → Int
  | .NotImplemented => VI_GPIB_HS488_NIMPL
  | .Disabled => VI_GPIB_HS488_DISABLED
  | .Meters m => if m = 0 then 1 else if m > 15 then 15 else (m : Int)

/-- Encode of the GpibHs488CblLen attribute: the i16 cast to the u64
ViAttrState (two's complement). -/
def GpibHs488CblLen.as_vi (value : GpibHs488CableLength) : Nat :=
  ((GpibHs488CblLen.as_vi_i16 value) % (2 ^ 64 : Int)).toNat

/-! Helper lemmas about the signal table and the cleanup path. -/

lemma mem_signal_done_self (s j : Nat) (t : SigTable) : (s, j) ∈ signal_done s j t := by
  by_cases h : (s, j) ∈ t <;> simp [signal_done, h]

lemma mem_signal_done_iter (s j n : Nat) (t : SigTable) (hn : 1 ≤ n) :
    (s, j) ∈ (signal_done s j)^[n] t := by
  obtain ⟨m, rfl⟩ : ∃ m, n = m + 1 := ⟨n - 1, by omega⟩
  rw [Function.iterate_succ_apply']
  exact mem_signal_done_self s j _

lemma check_signal_done_of_mem (s j : Nat) (t : SigTable) (h : (s, j) ∈ t) :
    check_signal_done s j t = (true, t.filter (fun p => p ≠ (s, j))) := by
  simp [check_signal_done, h]

lemma check_signal_done_of_not_mem (s j : Nat) (t : SigTable) (h : (s, j) ∉ t) :
    check_signal_done s j t = (false, t) := by
  simp [check_signal_done, h]

lemma not_mem_check_signal_done_snd (s j : Nat) (t : SigTable) :
    (s, j) ∉ (check_signal_done s j t).2 := by
  by_cases h : (s, j) ∈ t
  · simp [check_signal_done, h, List.mem_filter]
  · simp [check_signal_done, h]

lemma terminate_task_aborted (stT stU : Int) (t : AsyncTask) (w : World) :
    (terminate_task stT stU t w).2.aborted = (t.session, t.job_id) :: w.aborted := by
  rcases hA : Error.wrap_binding none stT with e | u
  · simp [terminate_task, hA]
  · rcases hB : Error.wrap_binding none stU with e | u2
    · simp [terminate_task, hA, hB]
    · simp [terminate_task, hA, hB]

lemma terminate_task_ok_eq (stT stU : Int) (t : AsyncTask) (w : World)
    (hT : Error.ERROR_OK.contains stT = true) (hU : Error.ERROR_OK.contains stU = true) :
    terminate_task stT stU t w =
      (Except.ok (),
       { table := w.table,
         handlers := w.handlers.filter (fun p => p ≠ (t.session, t.job_id)),
         aborted := (t.session, t.job_id) :: w.aborted }) := by
  have hT2 : stT ∈ Error.ERROR_OK := by simpa using hT
  have hU2 : stU ∈ Error.ERROR_OK := by simpa using hU
  simp [terminate_task, Error.wrap_binding, hT2, hU2]

/-! Claim theorems. -/

/-- C1. A single poll of an AsyncTask is a three-way non-blocking check, in
this order: when take_done (check_signal_done) finds the (session, job) pair
it consumes it and the poll resolves Ready (Ok) — in particular this branch
wins even when the elapsed time already exceeds the timeout, because the
first conjunct carries no condition on elapsed; otherwise, when the elapsed
wall-clock time strictly exceeds the caller-supplied timeout, the poll
resolves Ready with an error classified as Timeout; otherwise the task stays
Pending and the table is unchanged. -/
theorem poll_three_way_check (t : AsyncTask) (elapsed : Duration) (tbl : SigTable) :
    ((t.session, t.job_id) ∈ tbl →
      t.poll elapsed tbl =
        (TaskPoll.ready (Except.ok ()),
         tbl.filter (fun p => p ≠ (t.session, t.job_id)))) ∧
    ((t.session, t.job_id) ∉ tbl → Duration.ltb t.timeout elapsed = true →
      t.poll elapsed tbl =
        (TaskPoll.ready (Except.error ⟨ErrorType.Tmo, some asyncTimeoutMsg⟩), tbl)) ∧
    ((t.session, t.job_id) ∉ tbl → Duration.ltb t.timeout elapsed = false →
      t.poll elapsed tbl = (TaskPoll.pending, tbl)) := by
  refine ⟨fun h => ?_, fun h hlt => ?_, fun h hlt => ?_⟩
  · simp [AsyncTask.poll, check_signal_done_of_mem t.session t.job_id tbl h]
  · simp [AsyncTask.poll, check_signal_done_of_not_mem t.session t.job_id tbl h, hlt]
  · simp [AsyncTask.poll, check_signal_done_of_not_mem t.session t.job_id tbl h, hlt]

/-- Witness for C1: a task whose timeout (zero) is already exceeded but whose
completion is recorded polls to Completed, because the registry check is made
first; the same concrete task with an empty table polls to the Timeout error,
and with a large timeout stays Pending. -/
theorem poll_three_way_check_witness :
    AsyncTask.poll ⟨1, 2, ⟨0, 0⟩⟩ ⟨1, 0⟩ [(1, 2)] =
      (TaskPoll.ready (Except.ok ()), ([(1, 2)] : SigTable).filter (fun p => p ≠ (1, 2))) ∧
    AsyncTask.poll ⟨1, 2, ⟨0, 0⟩⟩ ⟨1, 0⟩ [] =
      (TaskPoll.ready (Except.error ⟨ErrorType.Tmo, some asyncTimeoutMsg⟩), []) ∧
    AsyncTask.poll ⟨1, 2, ⟨5, 0⟩⟩ ⟨1, 0⟩ [] = (TaskPoll.pending, []) :=
  ⟨(poll_three_way_check ⟨1, 2, ⟨0, 0⟩⟩ ⟨1, 0⟩ [(1, 2)]).1 (by decide),
   (poll_three_way_check ⟨1, 2, ⟨0, 0⟩⟩ ⟨1, 0⟩ []).2.1 (by decide) (by decide),
   (poll_three_way_check ⟨1, 2, ⟨5, 0⟩⟩ ⟨1, 0⟩ []).2.2 (by decide) (by decide)⟩

/-- C2. For any (session, job) pair, after n consecutive signal_done calls
(n at least one) with no intervening consumption, the first check_signal_done
returns true, and every later check — any number k of further consuming
calls later — returns false until another signal_done occurs: the completion
is consumed exactly once and repeated insertion delivers one completion. -/
theorem take_done_consumed_once (s j n : Nat) (t : SigTable) (hn : 1 ≤ n) :
    (check_signal_done s j ((signal_done s j)^[n] t)).1 = true ∧
    ∀ k : Nat,
      (check_signal_done s j
        ((fun u => (check_signal_done s j u).2)^[k]
          ((check_signal_done s j ((signal_done s j)^[n] t)).2))).1 = false := by
  have hmem := mem_signal_done_iter s j n t hn
  constructor
  · rw [check_signal_done_of_mem s j _ hmem]
  · intro k
    have h2 := not_mem_check_signal_done_snd s j ((signal_done s j)^[n] t)
    have hfix : (fun u => (check_signal_done s j u).2)^[k]
        ((check_signal_done s j ((signal_done s j)^[n] t)).2) =
        (check_signal_done s j ((signal_done s j)^[n] t)).2 :=
      Function.iterate_fixed (by rw [check_signal_done_of_not_mem s j _ h2]) k
    rw [hfix, check_signal_done_of_not_mem s j _ h2]

/-- Witness for C2: two consecutive signal_done calls for (1, 2) on the empty
table deliver exactly one completion — the first consuming check is true, the
next one is false. -/
theorem take_done_consumed_once_witness :
    (check_signal_done 1 2 ((signal_done 1 2)^[2] [])).1 = true ∧
    (check_signal_done 1 2
      ((fun u => (check_signal_done 1 2 u).2)^[0]
        ((check_signal_done 1 2 ((signal_done 1 2)^[2] [])).2))).1 = false :=
  ⟨(take_done_consumed_once 1 2 2 [] (by decide)).1,
   (take_done_consumed_once 1 2 2 [] (by decide)).2 0⟩

/-- C5. When the transport accepts both cleanup calls, discarding (dropping)
an AsyncTask without explicit termination still runs the cleanup: the
transport-level abort for the job is issued and the (session, job) completion
registration is uninstalled, so a later spurious completion delivery for that
job has no observable effect on the state; terminate itself (whose first step
is the same terminate_task) returns Ok; and a second cleanup of the already
cleaned-up task still completes — for any transport statuses, even failing
ones — reissuing the abort without surfacing a failure. -/
theorem terminate_uninstalls_handler (stT stU : Int) (t : AsyncTask) (w : World)
    (hT : Error.ERROR_OK.contains stT = true) (hU : Error.ERROR_OK.contains stU = true) :
    ((t.session, t.job_id) ∈ (AsyncTask.drop stT stU t w).aborted) ∧
    ((t.session, t.job_id) ∉ (AsyncTask.drop stT stU t w).handlers) ∧
    (deliver_completion t.session t.job_id (AsyncTask.drop stT stU t w) =
      AsyncTask.drop stT stU t w) ∧
    ((terminate_task stT stU t w).1 = Except.ok ()) ∧
    (∀ stT2 stU2 : Int,
      (t.session, t.job_id) ∈
        (AsyncTask.drop stT2 stU2 t (AsyncTask.drop stT stU t w)).aborted) := by
  have he := terminate_task_ok_eq stT stU t w hT hU
  have hd : AsyncTask.drop stT stU t w =
      { table := w.table,
        handlers := w.handlers.filter (fun p => p ≠ (t.session, t.job_id)),
        aborted := (t.session, t.job_id) :: w.aborted } := by
    simp [AsyncTask.drop, he]
  refine ⟨?_, ?_, ?_, ?_, ?_⟩
  · rw [hd]; exact List.mem_cons_self _ _
  · rw [hd]; simp [List.mem_filter]
  · rw [hd]; simp [deliver_completion, List.mem_filter]
  · rw [he]
  · intro stT2 stU2
    simp [AsyncTask.drop, terminate_task_aborted]

/-- Witness for C5: concrete task (session 1, job 2, any timeout), a world
with the matching handler installed, both transport statuses VI_SUCCESS. -/
theorem terminate_uninstalls_handler_witness :
    ((1, 2) ∈ (AsyncTask.drop 0 0 ⟨1, 2, ⟨0, 0⟩⟩ ⟨[], [(1, 2)], []⟩).aborted) ∧
    ((1, 2) ∉ (AsyncTask.drop 0 0 ⟨1, 2, ⟨0, 0⟩⟩ ⟨[], [(1, 2)], []⟩).handlers) ∧
    (deliver_completion 1 2 (AsyncTask.drop 0 0 ⟨1, 2, ⟨0, 0⟩⟩ ⟨[], [(1, 2)], []⟩) =
      AsyncTask.drop 0 0 ⟨1, 2, ⟨0, 0⟩⟩ ⟨[], [(1, 2)], []⟩) ∧
    ((terminate_task 0 0 ⟨1, 2, ⟨0, 0⟩⟩ ⟨[], [(1, 2)], []⟩).1 = Except.ok ()) ∧
    (∀ stT2 stU2 : Int,
      (1, 2) ∈
        (AsyncTask.drop stT2 stU2 ⟨1, 2, ⟨0, 0⟩⟩
          (AsyncTask.drop 0 0 ⟨1, 2, ⟨0, 0⟩⟩ ⟨[], [(1, 2)], []⟩)).aborted) :=
  terminate_uninstalls_handler 0 0 ⟨1, 2, ⟨0, 0⟩⟩ ⟨[], [(1, 2)], []⟩ (by decide) (by decide)

/-- C9. The Drop cleanup runs unconditionally in every state: after a poll
that already resolved the task (whatever the poll outcome, the task carries
no state recording it) a drop still issues the transport abort, with no
assumption on the transport statuses — the drop-time result, error or not, is
discarded; an explicit terminate consumes the task and triggers Drop as well,
so the abort for (session, job) is issued exactly twice more than before; and
when the transport accepts the calls the drop also uninstalls the (session,
job) handler registration. -/
theorem drop_cleanup_unconditional (stT1 stU1 stT2 stU2 : Int) (t : AsyncTask)
    (w : World) (elapsed : Duration) :
    ((t.session, t.job_id) ∈
      (AsyncTask.drop stT1 stU1 t
        { w with table := (t.poll elapsed w.table).2 }).aborted) ∧
    ((AsyncTask.terminate stT1 stU1 stT2 stU2 t w).2.aborted.count (t.session, t.job_id) =
      w.aborted.count (t.session, t.job_id) + 2) ∧
    (Error.ERROR_OK.contains stT1 = true → Error.ERROR_OK.contains stU1 = true →
      (t.session, t.job_id) ∉ (AsyncTask.drop stT1 stU1 t w).handlers) := by
  refine ⟨?_, ?_, fun hT hU => ?_⟩
  · simp [AsyncTask.drop, terminate_task_aborted]
  · have h1 := terminate_task_aborted stT1 stU1 t w
    have h2 := terminate_task_aborted stT2 stU2 t ((terminate_task stT1 stU1 t w).2)
    simp [AsyncTask.terminate, AsyncTask.drop, h1, h2, List.count_cons_self]
  · simp [AsyncTask.drop, terminate_task_ok_eq stT1 stU1 t w hT hU, List.mem_filter]

/-- Witness for C9 at concrete inputs: failing transport statuses for the
status-free conjuncts and VI_SUCCESS for the uninstall conjunct. -/
theorem drop_cleanup_unconditional_witness :
    ((1, 2) ∈
      (AsyncTask.drop 0 0 ⟨1, 2, ⟨0, 0⟩⟩
        { table := (AsyncTask.poll ⟨1, 2, ⟨0, 0⟩⟩ ⟨1, 0⟩ ([] : SigTable)).2,
          handlers := [(1, 2)], aborted := [] }).aborted) ∧
    ((AsyncTask.terminate 0 0 0 0 ⟨1, 2, ⟨0, 0⟩⟩ ⟨[], [(1, 2)], []⟩).2.aborted.count (1, 2) =
      (⟨[], [(1, 2)], []⟩ : World).aborted.count (1, 2) + 2) ∧
    ((1, 2) ∉ (AsyncTask.drop 0 0 ⟨1, 2, ⟨0, 0⟩⟩ ⟨[], [(1, 2)], []⟩).handlers) := by
  have h := drop_cleanup_unconditional 0 0 0 0 ⟨1, 2, ⟨0, 0⟩⟩ ⟨[], [(1, 2)], []⟩ ⟨1, 0⟩
  exact ⟨h.1, h.2.1, h.2.2 (by decide) (by decide)⟩

/-- C4. The single choke point wrap_binding returns Ok exactly when the
status belongs to the fixed success set — VI_SUCCESS and the twelve
informational success codes, pinned extensionally in the last conjunct; for
every other status it returns a typed error whose kind is the classification
of the status (with the description that would be fetched for it); and any
status matching none of the named ErrorType codes classifies as the
catch-all SystemError. -/
theorem wrap_binding_classifies (d : Option String) (s : Int) :
    (Error.wrap_binding d s = Except.ok () ↔ s ∈ Error.ERROR_OK) ∧
    (s ∉ Error.ERROR_OK →
      Error.wrap_binding d s = Except.error ⟨ErrorType.fromStatus s, d⟩) ∧
    (s ∉ ErrorType.all.map ErrorType.code → ErrorType.fromStatus s = ErrorType.SystemError) ∧
    (Error.ERROR_OK =
      [0, 1073676290, 1073676291, 1073676292, 1073676293, 1073676294, 1073676413,
       1073676414, 1073676416, 1073676440, 1073676441, 1073676442, 1073676443]) := by
  refine ⟨?_, fun h => ?_, fun h => ?_, by decide⟩
  · by_cases h : s ∈ Error.ERROR_OK <;> simp [Error.wrap_binding, h]
  · simp [Error.wrap_binding, Error.new, h]
  · have hfind : ErrorType.all.find? (fun v => s == v.code) = none := by
      rw [List.find?_eq_none]
      intro v hv
      simp only [beq_iff_eq]
      intro hEq
      exact h (by rw [hEq]; exact List.mem_map_of_mem ErrorType.code hv)
    simp [ErrorType.fromStatus, hfind]

/-- Witness for C4: the status 42 is neither a success code nor a named error
code, so the wrapper returns the classified error and the classification is
the catch-all SystemError. -/
theorem wrap_binding_classifies_witness :
    Error.wrap_binding none 42 = Except.error ⟨ErrorType.fromStatus 42, none⟩ ∧
    ErrorType.fromStatus 42 = ErrorType.SystemError :=
  ⟨(wrap_binding_classifies none 42).2.1 (by decide),
   (wrap_binding_classifies none 42).2.2.1 (by decide)⟩

/-- C8. The transport-facing callback bridge c_handler fails closed: for a
raw event-type value decoding to no Event variant, it returns the
invalid-event status to the transport with the ambient state untouched — for
every installed typed handler, so the handler is never invoked; for a
recognized event type it runs the handler, returning VI_SUCCESS on Ok and
the handler error's status code on Err. -/
theorem c_handler_fails_closed {σ : Type}
    (handle : Nat → Event → Nat → Nat → σ → Except Error Unit × σ)
    (session event_type event user_data : Nat) (st : σ) :
    (Event.try_from event_type = none →
      c_handler handle session event_type event user_data st = (VI_ERROR_INV_EVENT, st)) ∧
    (∀ ev : Event, Event.try_from event_type = some ev →
      (∀ st2 : σ, handle session ev event user_data st = (Except.ok (), st2) →
        c_handler handle session event_type event user_data st = (VI_SUCCESS, st2)) ∧
      (∀ (e : Error) (st2 : σ),
        handle session ev event user_data st = (Except.error e, st2) →
        c_handler handle session event_type event user_data st =
          (ErrorType.code e.status, st2))) := by
  refine ⟨fun h => ?_, fun ev hev => ⟨fun st2 hok => ?_, fun e st2 herr => ?_⟩⟩
  · simp [c_handler, h]
  · simp [c_handler, hev, hok]
  · simp [c_handler, hev, herr]

/-- Witness for C8 with the concrete AsyncTask completion handler on the
signal table: raw event type 5 is unrecognized and yields the invalid-event
status with the table unchanged; the IoCompletion constant is recognized, the
handler records the completion and the bridge returns VI_SUCCESS. -/
theorem c_handler_fails_closed_witness :
    c_handler AsyncTask.handle 7 5 0 9 ([] : SigTable) = (VI_ERROR_INV_EVENT, []) ∧
    c_handler AsyncTask.handle 7 VI_EVENT_IO_COMPLETION 0 9 ([] : SigTable) =
      (VI_SUCCESS, [(7, 9)]) := by
  constructor
  · exact (c_handler_fails_closed AsyncTask.handle 7 5 0 9 []).1 (by decide)
  · exact ((c_handler_fails_closed AsyncTask.handle 7 VI_EVENT_IO_COMPLETION 0 9 []).2
      Event.IoCompletion (by decide)).1 [(7, 9)] rfl

/-- C3. Round-trip law decode (encode v) = v for every writable codec in the
embedding, over each codec's defined domain, composing through the attribute's
raw wire width: the boolean codec shared by all boolean attributes; the
enum-valued codecs (parity, stop bits, flow control, lock state); the timeout
codec TmoValue on whole-millisecond durations representable in the raw u32;
the optional secondary-address codec including its no-value case; and the
cable-length codec on its defined domain (sentinels and 1 to 15 meters),
through the i16 reinterpretation of its encoded state. -/
theorem decode_encode_roundtrip :
    (∀ b : Bool, bool_from_vi (toU16 (bool_as_vi b)) = some b) ∧
    (∀ p : AsrlParityType, AsrlParity.from_vi (toU16 (AsrlParity.as_vi p)) = some p) ∧
    (∀ sb : AsrlStopBitsType,
      AsrlStopBits.from_vi (toU16 (AsrlStopBits.as_vi sb)) = some sb) ∧
    (∀ fc : AsrlFlowCntrlType,
      AsrlFlowCntrl.from_vi (toU16 (AsrlFlowCntrl.as_vi fc)) = some fc) ∧
    (∀ m : AccessMode, RsrcLockState.from_vi (toU32 (RsrcLockState.as_vi m)) = some m) ∧
    (∀ r : Nat, r < 2 ^ 32 →
      TmoValue.from_vi (toU32 (TmoValue.as_vi (Duration.from_millis r))) =
        some (Duration.from_millis r)) ∧
    (∀ a : Option Nat, (∀ x : Nat, a = some x → x ≤ 30) →
      GpibSecondaryAddr.from_vi (toU16 (GpibSecondaryAddr.as_vi a)) = some a) ∧
    (∀ c : GpibHs488CableLength, GpibHs488CableLength.inDomain c = true →
      GpibHs488CblLen.from_vi (toI16 (GpibHs488CblLen.as_vi c)) = some c) := by
  refine ⟨?_, ?_, ?_, ?_, ?_, ?_, ?_, ?_⟩
  · intro b; cases b <;> decide
  · intro p; cases p <;> decide
  · intro sb; cases sb <;> decide
  · intro fc; cases fc <;> decide
  · intro m; cases m <;> decide
  · intro r hr
    have h1 : (Duration.from_millis r).as_millis = r := by
      simp only [Duration.from_millis, Duration.as_millis]
      rw [Nat.mul_div_cancel _ (by norm_num : (0 : ℕ) < 1000000)]
      omega
    have h2 : r % 2 ^ 64 % 2 ^ 32 = r := by
      rw [Nat.mod_eq_of_lt (lt_of_lt_of_le hr (by norm_num)), Nat.mod_eq_of_lt hr]
    simp only [TmoValue.as_vi, h1, toU32, h2, TmoValue.from_vi]
  · intro a ha
    cases a with
    | none => decide
    | some x =>
      have hx : x ≤ 30 := ha x rfl
      have h1 : toU16 (GpibSecondaryAddr.as_vi (some x)) = x := by
        simp only [GpibSecondaryAddr.as_vi, Option.getD_some, toU16]
        exact Nat.mod_eq_of_lt (by omega)
      rw [h1]
      simp [GpibSecondaryAddr.from_vi, hx]
  · intro c hc
    cases c with
    | NotImplemented => decide
    | Disabled => decide
    | Meters m =>
      simp only [GpibHs488CableLength.inDomain, Bool.and_eq_true, decide_eq_true_eq] at hc
      obtain ⟨h1, h2⟩ := hc
      interval_cases m <;> decide

/-- Witness for C3 at concrete inputs for the hypothesis-bearing conjuncts:
the boolean round trip at true, 250 milliseconds for TmoValue, secondary
address 7 and the no-value case handled by the same conjunct at a concrete
input, 3 meters for the cable length. -/
theorem decode_encode_roundtrip_witness :
    bool_from_vi (toU16 (bool_as_vi true)) = some true ∧
    TmoValue.from_vi (toU32 (TmoValue.as_vi (Duration.from_millis 250))) =
      some (Duration.from_millis 250) ∧
    GpibSecondaryAddr.from_vi (toU16 (GpibSecondaryAddr.as_vi (some 7))) =
      some (some 7) ∧
    GpibHs488CblLen.from_vi
        (toI16 (GpibHs488CblLen.as_vi (GpibHs488CableLength.Meters 3))) =
      some (GpibHs488CableLength.Meters 3) :=
  ⟨decode_encode_roundtrip.1 true,
   decode_encode_roundtrip.2.2.2.2.2.1 250 (by norm_num),
   decode_encode_roundtrip.2.2.2.2.2.2.1 (some 7)
     (fun x hx => by injection hx with h; omega),
   decode_encode_roundtrip.2.2.2.2.2.2.2 (GpibHs488CableLength.Meters 3) (by decide)⟩

/-- C6. Every constrained decoder in the embedding rejects raw values outside
its defined domain (returns none) instead of clamping — in particular the
parity decoder rejects raw 99 — while the cable-length attribute is the one
codec whose conversion clamps: its encode maps every Meters value into the
range 1 to 15 (its decode still rejects out-of-range raws, covered by the
seventh conjunct). -/
theorem decode_rejects_out_of_range :
    (AsrlParity.from_vi 99 = none) ∧
    (∀ r : Nat, r ∉ [VI_ASRL_PAR_NONE, VI_ASRL_PAR_ODD, VI_ASRL_PAR_EVEN,
        VI_ASRL_PAR_MARK, VI_ASRL_PAR_SPACE] → AsrlParity.from_vi r = none) ∧
    (∀ r : Nat, r ∉ [VI_ASRL_STOP_ONE, VI_ASRL_STOP_ONE5, VI_ASRL_STOP_TWO] →
      AsrlStopBits.from_vi r = none) ∧
    (∀ r : Nat, r ∉ [VI_ASRL_FLOW_NONE, VI_ASRL_FLOW_XON_XOFF, VI_ASRL_FLOW_RTS_CTS,
        VI_ASRL_FLOW_DTR_DSR] → AsrlFlowCntrl.from_vi r = none) ∧
    (∀ r : Nat, r ∉ [VI_NO_LOCK, VI_EXCLUSIVE_LOCK, VI_SHARED_LOCK, VI_LOAD_CONFIG] →
      RsrcLockState.from_vi r = none) ∧
    (∀ r : Nat, 30 < r → r ≠ VI_NO_SEC_ADDR → GpibSecondaryAddr.from_vi r = none) ∧
    (∀ r : Int, r ≠ VI_GPIB_HS488_NIMPL → r ≠ VI_GPIB_HS488_DISABLED →
      ¬(1 ≤ r ∧ r ≤ 15) → GpibHs488CblLen.from_vi r = none) ∧
    (∀ m : Nat, 1 ≤ GpibHs488CblLen.as_vi_i16 (GpibHs488CableLength.Meters m) ∧
      GpibHs488CblLen.as_vi_i16 (GpibHs488CableLength.Meters m) ≤ 15) := by
  refine ⟨by decide, ?_, ?_, ?_, ?_, ?_, ?_, ?_⟩
  · intro r h
    simp only [List.mem_cons, List.not_mem_nil, or_false] at h
    push_neg at h
    obtain ⟨h1, h2, h3, h4, h5⟩ := h
    simp [AsrlParity.from_vi, AsrlParityType.code, h1, h2, h3, h4, h5]
  · intro r h
    simp only [List.mem_cons, List.not_mem_nil, or_false] at h
    push_neg at h
    obtain ⟨h1, h2, h3⟩ := h
    simp [AsrlStopBits.from_vi, AsrlStopBitsType.code, h1, h2, h3]
  · intro r h
    simp only [List.mem_cons, List.not_mem_nil, or_false] at h
    push_neg at h
    obtain ⟨h1, h2, h3, h4⟩ := h
    simp [AsrlFlowCntrl.from_vi, AsrlFlowCntrlType.code, h1, h2, h3, h4]
  · intro r h
    simp only [List.mem_cons, List.not_mem_nil, or_false] at h
    push_neg at h
    obtain ⟨h1, h2, h3, h4⟩ := h
    simp [RsrcLockState.from_vi, AccessMode.code, h1, h2, h3, h4]
  · intro r h1 h2
    rw [GpibSecondaryAddr.from_vi, if_neg (by omega), if_neg h2]
  · intro r h1 h2 h3
    simp [GpibHs488CblLen.from_vi, h1, h2, h3]
  · intro m
    refine ⟨?_, ?_⟩ <;> simp only [GpibHs488CblLen.as_vi_i16] <;> split_ifs <;> omega

/-- Witness for C6 at concrete out-of-range raws: raw 99 for stop bits and
flow control, raw 3 for the lock state (not an access-mode code), raw 31 and
raw 16 for the two GPIB decoders, and the clamped encode at 0 and 20
meters. -/
theorem decode_rejects_out_of_range_witness :
    AsrlStopBits.from_vi 99 = none ∧
    AsrlFlowCntrl.from_vi 99 = none ∧
    RsrcLockState.from_vi 3 = none ∧
    GpibSecondaryAddr.from_vi 31 = none ∧
    GpibHs488CblLen.from_vi 16 = none ∧
    (1 ≤ GpibHs488CblLen.as_vi_i16 (GpibHs488CableLength.Meters 20) ∧
      GpibHs488CblLen.as_vi_i16 (GpibHs488CableLength.Meters 20) ≤ 15) ∧
    (1 ≤ GpibHs488CblLen.as_vi_i16 (GpibHs488CableLength.Meters 0) ∧
      GpibHs488CblLen.as_vi_i16 (GpibHs488CableLength.Meters 0) ≤ 15) :=
  ⟨decode_rejects_out_of_range.2.2.1 99 (by decide),
   decode_rejects_out_of_range.2.2.2.1 99 (by decide),
   decode_rejects_out_of_range.2.2.2.2.1 3 (by decide),
   decode_rejects_out_of_range.2.2.2.2.2.1 31 (by decide) (by decide),
   decode_rejects_out_of_range.2.2.2.2.2.2.1 16 (by decide) (by decide) (by decide),
   decode_rejects_out_of_range.2.2.2.2.2.2.2 20,
   decode_rejects_out_of_range.2.2.2.2.2.2.2 0⟩

/-- C7. The optional GPIB secondary-address codec: encode is total and
substitutes the VI_NO_SEC_ADDR sentinel for the no-value case (and is the
identity on a present address); decode maps raw 0..=30 to that address, the
sentinel to the no-value case, and every other raw to no value. -/
theorem gpib_secondary_addr_codec :
    (GpibSecondaryAddr.as_vi none = VI_NO_SEC_ADDR) ∧
    (∀ v : Nat, GpibSecondaryAddr.as_vi (some v) = v) ∧
    (∀ r : Nat, r ≤ 30 → GpibSecondaryAddr.from_vi r = some (some r)) ∧
    (GpibSecondaryAddr.from_vi VI_NO_SEC_ADDR = some none) ∧
    (∀ r : Nat, 30 < r → r ≠ VI_NO_SEC_ADDR → GpibSecondaryAddr.from_vi r = none) := by
  refine ⟨rfl, fun v => rfl, fun r hr => ?_, by decide, fun r h1 h2 => ?_⟩
  · simp [GpibSecondaryAddr.from_vi, hr]
  · rw [GpibSecondaryAddr.from_vi, if_neg (by omega), if_neg h2]

/-- Witness for C7 at concrete raws 7 and 31. -/
theorem gpib_secondary_addr_codec_witness :
    GpibSecondaryAddr.from_vi 7 = some (some 7) ∧
    GpibSecondaryAddr.from_vi 31 = none :=
  ⟨gpib_secondary_addr_codec.2.2.1 7 (by decide),
   gpib_secondary_addr_codec.2.2.2.2 31 (by decide) (by decide)⟩

/-- C10. The TmoValue codec never rejects: decode is total, mapping every raw
value r — including the transport's immediate (0) and infinite (0xFFFFFFFF)
sentinels, which are ordinary raw u32 values here — to the duration of
exactly r milliseconds (r * 10^6 nanoseconds); and encode truncates to whole
milliseconds: adding any sub-millisecond remainder to a duration leaves the
encoded state unchanged at ms milliseconds (modulo the u64 state width). -/
theorem tmo_value_total_and_truncating :
    (∀ r : Nat, ∃ d : Duration, TmoValue.from_vi r = some d ∧
      d.secs * 1000000000 + d.nanos = r * 1000000) ∧
    (∀ ms sub : Nat, sub < 1000000 →
      TmoValue.as_vi ⟨ms / 1000, (ms % 1000) * 1000000 + sub⟩ = ms % 2 ^ 64) := by
  constructor
  · intro r
    refine ⟨Duration.from_millis r, rfl, ?_⟩
    simp only [Duration.from_millis]
    omega
  · intro ms sub hs
    have h : Duration.as_millis ⟨ms / 1000, (ms % 1000) * 1000000 + sub⟩ = ms := by
      simp only [Duration.as_millis]
      omega
    simp [TmoValue.as_vi, h]

/-- Witness for C10: the truncating conjunct at 250 milliseconds plus a
999999-nanosecond remainder, and the totality conjunct at the infinite
sentinel raw value. -/
theorem tmo_value_total_and_truncating_witness :
    (∃ d : Duration, TmoValue.from_vi 0xFFFFFFFF = some d ∧
      d.secs * 1000000000 + d.nanos = 0xFFFFFFFF * 1000000) ∧
    TmoValue.as_vi ⟨250 / 1000, (250 % 1000) * 1000000 + 999999⟩ = 250 % 2 ^ 64 :=
  ⟨tmo_value_total_and_truncating.1 0xFFFFFFFF,
   tmo_value_total_and_truncating.2 250 999999 (by norm_num)⟩

end LibVisa
